import Mathlib

/-
Shallow embedding of the AgentMem Python SDK core
(src/sdks/python/agentmem/{config,client,tools}.py) and proofs about it.

Python dictionaries are modelled as association lists in insertion order,
Python floats as rationals, and the HTTP transport as an oracle giving the
outcome of each attempt.  Exception-based control flow is modelled with
Except / tagged results.
-/

namespace AgentMem

/-! ### Python dict primitives (association lists in insertion order) -/

/-- Lookup in a Python dict: `d.get(k)` / `d[k]`. -/
def dictGet {α : Type} (d : List (String × α)) (k : String) : Option α :=
  (d.find? (fun p => p.1 == k)).map (fun p => p.2)

/-- Key membership in a Python dict: `k in d`. -/
def dictMem {α : Type} (d : List (String × α)) (k : String) : Bool :=
  d.any (fun p => p.1 == k)

/-- Python dict assignment `d[k] = v`: overwrite in place, else append. -/
def dictInsert {α : Type} (d : List (String × α)) (k : String) (v : α) :
    List (String × α) :=
  if d.any (fun p => p.1 == k) then
    d.map (fun p => if p.1 == k then (k, v) else p)
  else
    d ++ [(k, v)]

/-- Python `d.pop(k, None)`: remove the key if present (result state only). -/
def dictPop {α : Type} (d : List (String × α)) (k : String) : List (String × α) :=
  d.filter (fun p => p.1 != k)

/-- A single-quote character as a string (used in source error messages). -/
def squote : String := String.singleton (Char.ofNat 39)

/-- Substring containment of `sub` in `s`, as used for testing error texts. -/
def strContains (s sub : String) : Prop := sub.data <:+: s.data

/-! ### config.py : `Config` and `Config.validate` -/

/-- The `Config` dataclass of config.py, with its field defaults. -/
structure Config where
  api_key : String
  base_url : String := "https://api.agentmem.dev"
  api_version : String := "v1"
  timeout : ℚ := 30
  max_retries : ℤ := 3
  retry_delay : ℚ := 1
  max_connections : ℤ := 100
  max_keepalive_connections : ℤ := 20
  keepalive_expiry : ℚ := 5
  enable_logging : Bool := false
  log_level : String := "INFO"
  enable_compression : Bool := true
  enable_caching : Bool := true
  cache_ttl : ℚ := 300

/-- The fixed list of accepted log levels in `Config.validate`. -/
def validLogLevels : List String := ["DEBUG", "INFO", "WARNING", "ERROR", "CRITICAL"]

/-- Message of the log-level validation error (the Python repr of the list). -/
def logLevelErrMsg : String :=
  "Log level must be one of: [" ++ squote ++ "DEBUG" ++ squote ++ ", " ++
    squote ++ "INFO" ++ squote ++ ", " ++ squote ++ "WARNING" ++ squote ++ ", " ++
    squote ++ "ERROR" ++ squote ++ ", " ++ squote ++ "CRITICAL" ++ squote ++ "]"

/-- `Config.validate` of config.py: first failing check raises `ValueError`. -/
def Config.validate (c : Config) : Except String Unit :=
  if c.api_key = "" then Except.error "API key is required"
  else if c.base_url = "" then Except.error "Base URL is required"
  else if c.timeout ≤ 0 then Except.error "Timeout must be positive"
  else if c.max_retries < 0 then Except.error "Max retries must be non-negative"
  else if c.retry_delay < 0 then Except.error "Retry delay must be non-negative"
  else if c.max_connections ≤ 0 then Except.error "Max connections must be positive"
  else if c.max_keepalive_connections ≤ 0 then
    Except.error "Max keepalive connections must be positive"
  else if c.keepalive_expiry ≤ 0 then Except.error "Keepalive expiry must be positive"
  else if c.cache_ttl ≤ 0 then Except.error "Cache TTL must be positive"
  else if c.log_level ∈ validLogLevels then Except.ok ()
  else Except.error logLevelErrMsg

/-! ### types.py : the exception taxonomy -/

/-- The exception classes of types.py (`base` is a bare `AgentMemError`). -/
inductive AgentMemError where
  | authenticationError (msg : String)
  | validationError (msg : String)
  | networkError (msg : String)
  | notFoundError (msg : String)
  | rateLimitError (msg : String)
  | serverError (msg : String)
  | base (msg : String)
deriving DecidableEq

/-! ### client.py : cache key, TTL cache, request pipeline -/

/-- One escaped character of `json.dumps` output (backslash and quote). -/
def jsonEscapeChar (c : Char) : String :=
  if c = Char.ofNat 92 then String.singleton (Char.ofNat 92) ++ String.singleton (Char.ofNat 92)
  else if c = Char.ofNat 34 then String.singleton (Char.ofNat 92) ++ String.singleton (Char.ofNat 34)
  else String.singleton c

/-- A JSON string literal as `json.dumps` renders it. -/
def jsonQuote (s : String) : String :=
  String.singleton (Char.ofNat 34) ++ String.join (s.data.map jsonEscapeChar) ++
    String.singleton (Char.ofNat 34)

/-- `json.dumps(params, sort_keys=True)` on a string-valued dict: the pairs
sorted by key and rendered as a JSON object. -/
def dumpsSorted (ps : List (String × String)) : String :=
  let sorted := ps.mergeSort (fun a b => decide (a.1 ≤ b.1))
  "\x7b" ++ String.intercalate ", " (sorted.map (fun p => jsonQuote p.1 ++ ": " ++ jsonQuote p.2)) ++ "\x7d"

/-- `AgentMemClient._get_cache_key`: join method, url, and (when the params
dict is truthy) the sorted JSON dump, with a pipe separator. -/
def getCacheKey (method url : String) (params : Option (List (String × String))) : String :=
  match params with
  | none => String.intercalate "|" [method, url]
  | some ps =>
    if ps = [] then String.intercalate "|" [method, url]
    else String.intercalate "|" [method, url, dumpsSorted ps]

/-- The two cache dicts of the client: `_cache` and `_cache_timestamps`. -/
structure CacheState (V : Type) where
  cache : List (String × V)
  timestamps : List (String × ℚ)
deriving DecidableEq

/-- The client starts with both cache dicts empty. -/
def emptyCache {V : Type} : CacheState V := ⟨[], []⟩

/-- `AgentMemClient._is_cache_valid`: the entry is present and younger than
the TTL (`now` is the value of `time.time()` at the check). -/
def isCacheValid {V : Type} (cfg : Config) (st : CacheState V) (now : ℚ) (key : String) : Bool :=
  match dictGet st.timestamps key with
  | none => false
  | some ts => decide (now - ts < cfg.cache_ttl)

/-- `AgentMemClient._set_cache`: store value and timestamp, only when caching
is enabled. -/
def setCache {V : Type} (cfg : Config) (st : CacheState V) (now : ℚ) (key : String) (value : V) :
    CacheState V :=
  if cfg.enable_caching then
    ⟨dictInsert st.cache key value, dictInsert st.timestamps key now⟩
  else st

/-- `AgentMemClient._get_cache`: `none` when caching is disabled; the stored
value when the entry is valid; otherwise evict the expired entry from both
dicts and report a miss.  Returns the result and the updated state. -/
def getCache {V : Type} (cfg : Config) (st : CacheState V) (now : ℚ) (key : String) :
    Option V × CacheState V :=
  if cfg.enable_caching then
    if isCacheValid cfg st now key then (dictGet st.cache key, st)
    else (none, ⟨dictPop st.cache key, dictPop st.timestamps key⟩)
  else (none, st)

/-- An HTTP response as the pipeline consumes it: status code, decoded body
(for 200), and the decoded `message` field of the error body when the
response has content and carries one. -/
structure HttpResponse (V : Type) where
  status_code : Nat
  body : V
  message : Option String
deriving DecidableEq

/-- Outcome of one transport attempt: a received response, or an
`httpx.RequestError` (connection refused, DNS failure, timeout) with its
string rendering. -/
inductive TransportOutcome (V : Type) where
  | response (r : HttpResponse V)
  | netFail (msg : String)

instance {ε α : Type} [DecidableEq ε] [DecidableEq α] : DecidableEq (Except ε α) := fun x y =>
  match x, y with
  | Except.ok a, Except.ok b =>
    if h : a = b then isTrue (by rw [h]) else isFalse (by intro hh; cases hh; exact h rfl)
  | Except.error a, Except.error b =>
    if h : a = b then isTrue (by rw [h]) else isFalse (by intro hh; cases hh; exact h rfl)
  | Except.ok _, Except.error _ => isFalse (by intro h; cases h)
  | Except.error _, Except.ok _ => isFalse (by intro h; cases h)

/-- Observable behaviour of one `_make_request` call: how many transport
attempts were issued, the backoff sleeps performed between them, and the
final outcome (decoded 200 body, or the raised error). -/
structure RequestTrace (V : Type) where
  attemptsIssued : Nat
  sleeps : List ℚ
  result : Except AgentMemError V
deriving DecidableEq

/-- Status-code dispatch of `_make_request` for non-200 responses, with the
exact messages the source builds (`error_data.get` defaults to
"Unknown error" when the body has no message). -/
def classifyFailure {V : Type} (r : HttpResponse V) : AgentMemError :=
  if r.status_code = 401 then
    AgentMemError.authenticationError "Invalid API key or authentication failed"
  else if r.status_code = 400 then
    AgentMemError.validationError ("Request validation failed: " ++ r.message.getD "Unknown error")
  else if r.status_code = 404 then
    AgentMemError.notFoundError "Resource not found"
  else if r.status_code = 429 then
    AgentMemError.rateLimitError "Rate limit exceeded"
  else if 500 ≤ r.status_code then
    AgentMemError.serverError ("Server error: " ++ r.message.getD "Unknown error")
  else
    AgentMemError.base ("Unexpected status code: " ++ toString r.status_code)

/-- The retry loop of `_make_request` (`for attempt in range(max_retries+1)`),
with `fuel` the number of remaining iterations and `lastExc` the
`last_exception` variable.  A 200 returns; any other status raises its
classified error (the four-exception handler re-raises, `ServerError` and the
generic error are not caught); a transport failure retries after
`retry_delay * 2 ** attempt` while `attempt < max_retries`, else the last
network error is raised after the loop. -/
def loopGo {V : Type} (oracle : Nat → TransportOutcome V) (maxRetries : ℤ) (retryDelay : ℚ) :
    Nat → Nat → Option AgentMemError → RequestTrace V
  | _, 0, lastExc =>
    ⟨0, [], Except.error (lastExc.getD (AgentMemError.base "Request failed after all retries"))⟩
  | attempt, fuel + 1, _ =>
    match oracle attempt with
    | TransportOutcome.response r =>
      if r.status_code = 200 then ⟨1, [], Except.ok r.body⟩
      else ⟨1, [], Except.error (classifyFailure r)⟩
    | TransportOutcome.netFail m =>
      let exc := AgentMemError.networkError ("Network error: " ++ m)
      if (attempt : ℤ) < maxRetries then
        let delay := retryDelay * 2 ^ attempt
        let rest := loopGo oracle maxRetries retryDelay (attempt + 1) fuel (some exc)
        ⟨rest.attemptsIssued + 1, delay :: rest.sleeps, rest.result⟩
      else
        ⟨1, [], Except.error exc⟩

/-- The retry loop entered at attempt 0 with the configured budget. -/
def runLoop {V : Type} (cfg : Config) (oracle : Nat → TransportOutcome V) : RequestTrace V :=
  loopGo oracle cfg.max_retries cfg.retry_delay 0 (cfg.max_retries + 1).toNat none

/-- `AgentMemClient._make_request`: cache lookup for cache-eligible GETs
(the only bypass of the transport), then the retry loop, then cache
population on a successful cache-eligible GET.  Returns the request trace
and the resulting cache state. -/
def makeRequest {V : Type} (cfg : Config) (oracle : Nat → TransportOutcome V)
    (method url : String) (params : Option (List (String × String))) (useCache : Bool)
    (st : CacheState V) (now : ℚ) : RequestTrace V × CacheState V :=
  if (method == "GET") && useCache then
    let key := getCacheKey method url params
    let looked := getCache cfg st now key
    match looked.1 with
    | some v => (⟨0, [], Except.ok v⟩, looked.2)
    | none =>
      let tr := runLoop cfg oracle
      match tr.result with
      | Except.ok v => (tr, setCache cfg looked.2 now key v)
      | Except.error _ => (tr, looked.2)
  else
    (runLoop cfg oracle, st)

/-- The start times of the transport attempts implied by a sleep sequence
(first attempt at time 0, each later attempt after the preceding sleep). -/
def attemptTimes (sleeps : List ℚ) : List ℚ :=
  sleeps.scanl (fun a b => a + b) 0

/-- Hypothesis under which `_make_request` reaches the transport loop: the
call is not a cache-eligible GET, or its cache lookup misses. -/
def reachesTransport {V : Type} (cfg : Config) (method url : String)
    (params : Option (List (String × String))) (useCache : Bool)
    (st : CacheState V) (now : ℚ) : Prop :=
  ((method == "GET") && useCache) = false ∨
    (getCache cfg st now (getCacheKey method url params)).1 = none

/-- One `_make_request` call description, for iterating client operations. -/
structure RequestSpec (V : Type) where
  oracle : Nat → TransportOutcome V
  method : String
  url : String
  params : Option (List (String × String))
  useCache : Bool
  now : ℚ

/-- The cache state reached after a sequence of `_make_request` calls. -/
def runRequests {V : Type} (cfg : Config) (reqs : List (RequestSpec V)) (st : CacheState V) :
    CacheState V :=
  reqs.foldl (fun s r => (makeRequest cfg r.oracle r.method r.url r.params r.useCache s r.now).2) st

/-! ### client.py : request bodies of add_memory / update_memory -/

/-- A JSON value appearing in an outgoing request body. -/
inductive BodyVal where
  | s (v : String)
  | f (v : ℚ)
  | d (v : List (String × String))
deriving DecidableEq

/-- Python truthiness of an optional string (`if user_id:`). -/
def pyTruthyStr : Option String → Bool
  | none => false
  | some s => s != ""

/-- Python truthiness of an optional dict (`if metadata:`). -/
def pyTruthyDict : Option (List (String × String)) → Bool
  | none => false
  | some d => d != []

/-- The body built by `AgentMemClient.add_memory`: the four required fields,
then each optional field appended when its argument is truthy. -/
def addMemoryBody (content agent_id memory_type : String) (importance : ℚ)
    (user_id session_id : Option String) (metadata : Option (List (String × String))) :
    List (String × BodyVal) :=
  let data := [("content", BodyVal.s content), ("agent_id", BodyVal.s agent_id),
    ("memory_type", BodyVal.s memory_type), ("importance", BodyVal.f importance)]
  let data := match user_id with
    | some u => if u != "" then data ++ [("user_id", BodyVal.s u)] else data
    | none => data
  let data := match session_id with
    | some s => if s != "" then data ++ [("session_id", BodyVal.s s)] else data
    | none => data
  match metadata with
  | some m => if m != [] then data ++ [("metadata", BodyVal.d m)] else data
  | none => data

/-- The body built by `AgentMemClient.update_memory`: each field appended
exactly when its argument `is not None`. -/
def updateMemoryBody (content : Option String) (importance : Option ℚ)
    (metadata : Option (List (String × String))) : List (String × BodyVal) :=
  let data : List (String × BodyVal) := []
  let data := match content with
    | some c => data ++ [("content", BodyVal.s c)]
    | none => data
  let data := match importance with
    | some i => data ++ [("importance", BodyVal.f i)]
    | none => data
  match metadata with
  | some m => data ++ [("metadata", BodyVal.d m)]
  | none => data

/-! ### tools.py : ToolExecutor.execute -/

/-- The `ToolStatus` enum of tools.py. -/
inductive ToolStatus where
  | pending
  | running
  | success
  | failed
  | cancelled
deriving DecidableEq

/-- The `ToolParameter` dataclass (fields used by `execute`). -/
structure ToolParameter where
  name : String
  type : String
  description : String
  required : Bool
  default : Option String
deriving DecidableEq

/-- The `ToolSchema` dataclass. -/
structure ToolSchema where
  name : String
  description : String
  parameters : List ToolParameter
  returns : String
deriving DecidableEq

/-- What a handler invocation does: return a value, raise
`asyncio.TimeoutError` (the class the try-wide first except clause of
`execute` catches), or raise any other exception whose `str` is `msg`. -/
inductive HandlerOutcome (V : Type) where
  | ok (v : V)
  | timeoutExn
  | exn (msg : String)
deriving DecidableEq

/-- A registered handler: a plain function, or a coroutine function
(`asyncio.iscoroutinefunction` distinguishes the two in the source). -/
inductive Handler (V : Type) where
  | sync (f : List (String × V) → HandlerOutcome V)
  | async (f : List (String × V) → HandlerOutcome V)

/-- The `ToolExecution` dataclass. -/
structure ToolExecution (V : Type) where
  id : String
  tool_name : String
  status : ToolStatus
  input : List (String × V)
  output : Option V
  error : Option String
  duration_ms : Option ℚ
deriving DecidableEq

/-- The executor's synchronized `_tools` / `_handlers` dicts, modelled as one
name-keyed dict of schema and handler (registration keeps them in step). -/
structure ToolExecutor (V : Type) where
  tools : List (String × ToolSchema × Handler V)

/-- `ToolExecutor.register_tool`. -/
def registerTool {V : Type} (ex : ToolExecutor V) (schema : ToolSchema) (h : Handler V) :
    ToolExecutor V :=
  ⟨dictInsert ex.tools schema.name (schema, h)⟩

/-- The unknown-tool error message of `execute`. -/
def notFoundMsg (tool_name : String) : String :=
  "Tool " ++ squote ++ tool_name ++ squote ++ " not found"

/-- The missing-required-parameter error message of `execute`. -/
def missingParamMsg (param_name : String) : String :=
  "Missing required parameter: " ++ param_name

/-- Python f-string rendering of the `timeout` variable of type
`Optional[float]`: `None` renders as "None", a number as its numeral. -/
def pyStrOptFloat : Option ℚ → String
  | none => "None"
  | some t => toString t

/-- The timeout error message of `execute`, interpolating the `timeout`
argument exactly as the source f-string does. -/
def timeoutMsg (timeout : Option ℚ) : String :=
  "Tool execution timed out after " ++ pyStrOptFloat timeout ++ "s"

/-- Python truthiness of the optional float `timeout` (`if timeout:`). -/
def pyTruthyFloat : Option ℚ → Bool
  | none => false
  | some t => t != 0

/-- `ToolExecutor.execute`.  `execution_id` stands for the generated UUID and
`elapsed_ms` for the measured duration; `timed_out` tells whether
`asyncio.wait_for` hit its deadline in the one branch that arms it (a
coroutine handler with a truthy timeout).  The whole handler invocation sits
in one try whose first clause catches `asyncio.TimeoutError` — raised either
by `asyncio.wait_for` or by the handler itself, from a plain handler too —
and returns the timed-out failure interpolating the `timeout` argument; any
other exception is returned as a failure carrying its text.  Nothing is
raised. -/
def execute {V : Type} (ex : ToolExecutor V) (tool_name : String)
    (input_data : List (String × V)) (timeout : Option ℚ) (execution_id : String)
    (elapsed_ms : ℚ) (timed_out : Bool) : ToolExecution V :=
  match dictGet ex.tools tool_name with
  | none =>
    ⟨execution_id, tool_name, ToolStatus.failed, input_data, none,
      some (notFoundMsg tool_name), some elapsed_ms⟩
  | some (schema, handler) =>
    match schema.parameters.find? (fun p => p.required && !(dictMem input_data p.name)) with
    | some p =>
      ⟨execution_id, tool_name, ToolStatus.failed, input_data, none,
        some (missingParamMsg p.name), some elapsed_ms⟩
    | none =>
      let outcome : HandlerOutcome V :=
        match handler with
        | Handler.sync f => f input_data
        | Handler.async f =>
          if pyTruthyFloat timeout && timed_out then HandlerOutcome.timeoutExn
          else f input_data
      match outcome with
      | HandlerOutcome.ok v =>
        ⟨execution_id, tool_name, ToolStatus.success, input_data, some v, none, some elapsed_ms⟩
      | HandlerOutcome.timeoutExn =>
        ⟨execution_id, tool_name, ToolStatus.failed, input_data, none,
          some (timeoutMsg timeout), some elapsed_ms⟩
      | HandlerOutcome.exn m =>
        ⟨execution_id, tool_name, ToolStatus.failed, input_data, none, some m, some elapsed_ms⟩

/-- Concrete executor for counterexamples: one tool with a required
parameter named "a" and a plain handler. -/
def ex0 : ToolExecutor Nat :=
  registerTool ⟨[]⟩
    ⟨"calc", "calculator", [⟨"a", "number", "first operand", true, none⟩], "number"⟩
    (Handler.sync (fun _ => HandlerOutcome.ok 0))

/-- Concrete executor whose only tool has a handler that raises. -/
def exRaise : ToolExecutor Nat :=
  registerTool ⟨[]⟩ ⟨"boom", "raises", [], "nothing"⟩
    (Handler.sync (fun _ => HandlerOutcome.exn "division by zero"))

/-- Concrete executor whose only tool is a plain (non-coroutine) handler
that raises `asyncio.TimeoutError` itself. -/
def exTimeoutRaise : ToolExecutor Nat :=
  registerTool ⟨[]⟩ ⟨"slow", "raises TimeoutError", [], "nothing"⟩
    (Handler.sync (fun _ => HandlerOutcome.timeoutExn))

/-! ### helper definitions for counterexamples and witnesses -/

instance (s sub : String) : Decidable (strContains s sub) := by
  unfold strContains; infer_instance

/-- Configuration of the C4 counterexample: caching disabled, TTL zero. -/
def c4cfg : Config := { api_key := "k", enable_caching := false, cache_ttl := 0 }

/-- Configuration of the backoff example: two retries, base delay one. -/
def cfg3 : Config := { api_key := "k", max_retries := 2, retry_delay := 1 }

/-! ### theorems -/

/-- C4 counterexample: with caching disabled, zero TTL, and every other
field valid, validation still raises the TTL error instead of passing. -/
theorem c4_counterexample :
    c4cfg.enable_caching = false ∧ c4cfg.cache_ttl ≤ 0 ∧
    Config.validate c4cfg = Except.error "Cache TTL must be positive" ∧
    Config.validate { c4cfg with cache_ttl := 300 } = Except.ok () := by
  refine ⟨rfl, by norm_num [c4cfg], rfl, rfl⟩

/-- C4 (amended): validation succeeds exactly when the credential and
endpoint are nonempty, the numeric limits have the required signs, the log
level is in the accepted list, and the cache TTL is positive, the TTL being
checked unconditionally. -/
theorem c4_validate_ok_iff (c : Config) :
    c.validate = Except.ok () ↔
      (c.api_key ≠ "" ∧ c.base_url ≠ "" ∧ 0 < c.timeout ∧ 0 ≤ c.max_retries ∧
       0 ≤ c.retry_delay ∧ 0 < c.max_connections ∧ 0 < c.max_keepalive_connections ∧
       0 < c.keepalive_expiry ∧ 0 < c.cache_ttl ∧ c.log_level ∈ validLogLevels) := by
  constructor
  · intro h
    unfold Config.validate at h
    split_ifs at h with h1 h2 h3 h4 h5 h6 h7 h8 h9 h10 <;>
      try exact (Except.noConfusion h)
    exact ⟨h1, h2, not_le.mp h3, not_lt.mp h4, not_lt.mp h5, not_le.mp h6, not_le.mp h7,
      not_le.mp h8, not_le.mp h9, h10⟩
  · intro hc
    obtain ⟨a1, a2, a3, a4, a5, a6, a7, a8, a9, a10⟩ := hc
    unfold Config.validate
    rw [if_neg a1, if_neg a2, if_neg (not_le.mpr a3), if_neg (not_lt.mpr a4),
      if_neg (not_lt.mpr a5), if_neg (not_le.mpr a6), if_neg (not_le.mpr a7),
      if_neg (not_le.mpr a8), if_neg (not_le.mpr a9), if_pos a10]

/-! ### pipeline helper lemmas -/

/-- Looking a key up after popping it misses. -/
theorem dictGet_dictPop_self {α : Type} (d : List (String × α)) (k : String) :
    dictGet (dictPop d k) k = none := by
  induction d with
  | nil => rfl
  | cons p t ih =>
    by_cases h : p.1 = k
    · simpa [dictPop, dictGet, h] using ih
    · simpa [dictPop, dictGet, h] using ih

/-- When the call is not a cache-eligible GET or the lookup misses, the
trace of `_make_request` is the trace of the retry loop. -/
theorem makeRequest_fst_of_reaches {V : Type} (cfg : Config) (oracle : Nat → TransportOutcome V)
    (method url : String) (params : Option (List (String × String))) (useCache : Bool)
    (st : CacheState V) (now : ℚ)
    (hreach : reachesTransport cfg method url params useCache st now) :
    (makeRequest cfg oracle method url params useCache st now).1 = runLoop cfg oracle := by
  unfold makeRequest
  rcases hreach with h | h
  · rw [h]; simp
  · by_cases hb : ((method == "GET") && useCache) = true
    · simp only [hb, if_true]
      rw [h]
      cases hres : (runLoop cfg oracle).result <;> simp
    · simp only [Bool.not_eq_true] at hb
      rw [hb]; simp

/-- The retry loop issues at least one transport attempt when it has fuel. -/
theorem loopGo_attempts_pos {V : Type} (oracle : Nat → TransportOutcome V) (mr : ℤ) (d : ℚ)
    (attempt fuel : Nat) (last : Option AgentMemError) (hf : 0 < fuel) :
    1 ≤ (loopGo oracle mr d attempt fuel last).attemptsIssued := by
  cases fuel with
  | zero => omega
  | succ n =>
    unfold loopGo
    cases oracle attempt with
    | response r =>
      by_cases h : r.status_code = 200 <;> simp [h]
    | netFail m =>
      by_cases h : (attempt : ℤ) < mr <;> simp [h]

/-- A received non-200 response at the current attempt ends the loop at once
with the classified error. -/
theorem loopGo_response {V : Type} (oracle : Nat → TransportOutcome V) (mr : ℤ) (d : ℚ)
    (attempt fuel : Nat) (last : Option AgentMemError) (r : HttpResponse V)
    (hf : 0 < fuel) (h0 : oracle attempt = TransportOutcome.response r)
    (hne : r.status_code ≠ 200) :
    loopGo oracle mr d attempt fuel last = ⟨1, [], Except.error (classifyFailure r)⟩ := by
  cases fuel with
  | zero => omega
  | succ n =>
    unfold loopGo
    rw [h0]
    simp [hne]

/-- When every attempt fails at the transport level, the loop spends all its
fuel, sleeping `d * 2 ^ i` after each non-final attempt, and ends with the
network error of the last attempt. -/
theorem loopGo_netFail {V : Type} (oracle : Nat → TransportOutcome V) (mr : ℤ) (d : ℚ)
    (msgs : Nat → String) (hfail : ∀ i, oracle i = TransportOutcome.netFail (msgs i))
    (fuel : Nat) :
    ∀ (attempt : Nat) (last : Option AgentMemError), 0 < fuel →
      (attempt : ℤ) + fuel = mr + 1 →
      loopGo oracle mr d attempt fuel last =
        ⟨fuel, (List.range' attempt (fuel - 1)).map (fun i => d * 2 ^ i),
          Except.error (AgentMemError.networkError ("Network error: " ++ msgs (attempt + (fuel - 1))))⟩ := by
  induction fuel with
  | zero => intro attempt last hf; omega
  | succ n ih =>
    intro attempt last _ hsum
    unfold loopGo
    rw [hfail attempt]
    dsimp only
    by_cases hlt : (attempt : ℤ) < mr
    · rw [if_pos hlt]
      cases n with
      | zero => exfalso; push_cast at hsum; omega
      | succ m =>
        rw [ih (attempt + 1) _ (Nat.succ_pos m) (by push_cast at hsum ⊢; omega)]
        simp only [Nat.succ_sub_one]
        rw [List.range'_succ]
        simp only [List.map_cons]
        have harg : attempt + 1 + m = attempt + (m + 1) := by omega
        rw [harg]
    · rw [if_neg hlt]
      have hn0 : n = 0 := by push_cast at hsum; omega
      subst hn0
      simp

/-- C3 counterexample: with two retries and base delay one and every attempt
failing at the transport level, the backoff sleeps are one second then two
seconds — not one second twice — so the attempts start at t = 0, 1, 3 and
not at t = 0, 1, 2. -/
theorem c3_counterexample :
    (@makeRequest Nat cfg3 (fun _ => TransportOutcome.netFail "Connection refused")
        "POST" "/x" none false emptyCache 0).1.sleeps = [1, 2] ∧
    ([1, 2] : List ℚ) ≠ [1, 1] ∧
    attemptTimes [1, 2] = [0, 1, 3] ∧
    ([0, 1, 3] : List ℚ) ≠ [0, 1, 2] := by
  refine ⟨?_, by norm_num, ?_, by norm_num⟩
  · rw [makeRequest_fst_of_reaches cfg3 _ "POST" "/x" none false emptyCache 0 (Or.inl rfl)]
    unfold runLoop
    rw [loopGo_netFail _ _ _ (fun _ => "Connection refused") (fun i => rfl) _ 0 none
      (by norm_num [cfg3]) (by norm_num [cfg3])]
    norm_num [cfg3, List.range', List.range'_succ, Int.toNat_ofNat]
  · norm_num [attemptTimes, List.scanl]

/-- C3 (amended): with maxRetries 2 and base delay 1 and every transport
attempt failing with a connection error, the pipeline issues three attempts
with backoff sleeps of 1 s then 2 s — the attempts start at t = 0, 1 and 3 —
and then raises the network error of the last failure. -/
theorem c3_backoff_times :
    (@makeRequest Nat cfg3 (fun _ => TransportOutcome.netFail "Connection refused")
        "POST" "/x" none false emptyCache 0).1 =
      ⟨3, [1, 2],
        Except.error (AgentMemError.networkError ("Network error: " ++ "Connection refused"))⟩ ∧
    attemptTimes [1, 2] = [0, 1, 3] := by
  constructor
  · rw [makeRequest_fst_of_reaches cfg3 _ "POST" "/x" none false emptyCache 0 (Or.inl rfl)]
    unfold runLoop
    rw [loopGo_netFail _ _ _ (fun _ => "Connection refused") (fun i => rfl) _ 0 none
      (by norm_num [cfg3]) (by norm_num [cfg3])]
    norm_num [cfg3, List.range', List.range'_succ, Int.toNat_ofNat]
    decide
  · norm_num [attemptTimes, List.scanl]

/-- C1: a request that reaches the transport and receives a non-200 response
on its first attempt issues exactly one transport attempt, sleeps never, and
raises the error classified from the status code: authentication for 401,
validation for 400, not-found for 404, rate-limit for 429, server error for
500 and above, and the generic error for any other code. -/
theorem c1_non200_single_attempt {V : Type} (cfg : Config) (oracle : Nat → TransportOutcome V)
    (method url : String) (params : Option (List (String × String))) (useCache : Bool)
    (st : CacheState V) (now : ℚ) (r : HttpResponse V)
    (hreach : reachesTransport cfg method url params useCache st now)
    (hmr : 0 ≤ cfg.max_retries)
    (h0 : oracle 0 = TransportOutcome.response r)
    (hne : r.status_code ≠ 200) :
    (makeRequest cfg oracle method url params useCache st now).1.attemptsIssued = 1 ∧
    (makeRequest cfg oracle method url params useCache st now).1.sleeps = [] ∧
    (r.status_code = 401 →
      (makeRequest cfg oracle method url params useCache st now).1.result =
        Except.error (AgentMemError.authenticationError "Invalid API key or authentication failed")) ∧
    (r.status_code = 400 →
      (makeRequest cfg oracle method url params useCache st now).1.result =
        Except.error (AgentMemError.validationError
          ("Request validation failed: " ++ r.message.getD "Unknown error"))) ∧
    (r.status_code = 404 →
      (makeRequest cfg oracle method url params useCache st now).1.result =
        Except.error (AgentMemError.notFoundError "Resource not found")) ∧
    (r.status_code = 429 →
      (makeRequest cfg oracle method url params useCache st now).1.result =
        Except.error (AgentMemError.rateLimitError "Rate limit exceeded")) ∧
    (500 ≤ r.status_code →
      (makeRequest cfg oracle method url params useCache st now).1.result =
        Except.error (AgentMemError.serverError
          ("Server error: " ++ r.message.getD "Unknown error"))) ∧
    (r.status_code ∉ ([200, 400, 401, 404, 429] : List Nat) → r.status_code < 500 →
      (makeRequest cfg oracle method url params useCache st now).1.result =
        Except.error (AgentMemError.base
          ("Unexpected status code: " ++ toString r.status_code))) := by
  have hfuel : 0 < (cfg.max_retries + 1).toNat := by omega
  have hloop : (makeRequest cfg oracle method url params useCache st now).1 =
      ⟨1, [], Except.error (classifyFailure r)⟩ := by
    rw [makeRequest_fst_of_reaches cfg oracle method url params useCache st now hreach]
    unfold runLoop
    exact loopGo_response oracle cfg.max_retries cfg.retry_delay 0 _ none r hfuel h0 hne
  rw [hloop]
  refine ⟨rfl, rfl, ?_, ?_, ?_, ?_, ?_, ?_⟩
  · intro h; unfold classifyFailure; rw [if_pos h]
  · intro h
    unfold classifyFailure
    rw [if_neg (by omega), if_pos h]
  · intro h
    unfold classifyFailure
    rw [if_neg (by omega), if_neg (by omega), if_pos h]
  · intro h
    unfold classifyFailure
    rw [if_neg (by omega), if_neg (by omega), if_neg (by omega), if_pos h]
  · intro h
    unfold classifyFailure
    rw [if_neg (by omega), if_neg (by omega), if_neg (by omega), if_neg (by omega), if_pos h]
  · intro hmem hlt
    simp only [List.mem_cons, List.mem_singleton] at hmem
    push_neg at hmem
    obtain ⟨m1, m2, m3, m4, m5⟩ := hmem
    unfold classifyFailure
    rw [if_neg (by omega), if_neg (by omega), if_neg (by omega), if_neg (by omega),
      if_neg (by omega)]

/-- C1 witness: a 401 response makes the pipeline issue one attempt and
raise the authentication error. -/
theorem c1_non200_single_attempt_witness :
    (@makeRequest Nat cfg3 (fun _ => TransportOutcome.response ⟨401, 0, none⟩)
        "POST" "/x" none false emptyCache 0).1.attemptsIssued = 1 ∧
    (@makeRequest Nat cfg3 (fun _ => TransportOutcome.response ⟨401, 0, none⟩)
        "POST" "/x" none false emptyCache 0).1.result =
      Except.error (AgentMemError.authenticationError "Invalid API key or authentication failed") := by
  have h := @c1_non200_single_attempt Nat cfg3
    (fun _ => TransportOutcome.response ⟨401, 0, none⟩) "POST" "/x" none false emptyCache 0
    ⟨401, 0, none⟩ (Or.inl rfl) (by norm_num [cfg3]) rfl (by norm_num)
  exact ⟨h.1, h.2.2.1 rfl⟩

/-- C2: when every transport attempt fails at the transport level, the
pipeline issues exactly maxRetries + 1 attempts, sleeps
retryDelay * 2 ^ i after attempt i for i = 0 .. maxRetries - 1, and raises
the network error of the last failure. -/
theorem c2_network_retries_exhausted {V : Type} (cfg : Config)
    (oracle : Nat → TransportOutcome V) (method url : String)
    (params : Option (List (String × String))) (useCache : Bool)
    (st : CacheState V) (now : ℚ) (n : Nat) (msgs : Nat → String)
    (hreach : reachesTransport cfg method url params useCache st now)
    (hmr : cfg.max_retries = (n : ℤ))
    (hfail : ∀ i, oracle i = TransportOutcome.netFail (msgs i)) :
    (makeRequest cfg oracle method url params useCache st now).1 =
      ⟨n + 1, (List.range n).map (fun i => cfg.retry_delay * 2 ^ i),
        Except.error (AgentMemError.networkError ("Network error: " ++ msgs n))⟩ := by
  rw [makeRequest_fst_of_reaches cfg oracle method url params useCache st now hreach]
  unfold runLoop
  rw [hmr]
  have ht : ((n : ℤ) + 1).toNat = n + 1 := by omega
  rw [ht]
  rw [loopGo_netFail oracle n cfg.retry_delay msgs hfail (n + 1) 0 none (by omega)
    (by push_cast; omega)]
  simp [List.range_eq_range']

/-- C2 witness: with two retries and base delay one, three failing attempts
produce sleeps of one and two seconds and the last network error. -/
theorem c2_network_retries_exhausted_witness :
    (@makeRequest Nat cfg3 (fun _ => TransportOutcome.netFail "boom")
        "POST" "/x" none false emptyCache 0).1 =
      ⟨3, [1, 2], Except.error (AgentMemError.networkError ("Network error: " ++ "boom"))⟩ := by
  have h := @c2_network_retries_exhausted Nat cfg3 (fun _ => TransportOutcome.netFail "boom")
    "POST" "/x" none false emptyCache 0 2 (fun _ => "boom") (Or.inl rfl) (by norm_num [cfg3])
    (fun i => rfl)
  rw [h]
  norm_num [cfg3, List.range_succ]

/-- C5: for a cache-eligible GET with caching enabled and an entry present
for the request key, an age strictly below the TTL returns the cached value
with no transport attempt and no state change, while an age at or past the
TTL is a miss that evicts the entry from both cache dicts and sends the
request to the transport. -/
theorem c5_cache_hit_and_expiry {V : Type} (cfg : Config) (oracle : Nat → TransportOutcome V)
    (url : String) (params : Option (List (String × String))) (st : CacheState V)
    (now ts : ℚ) (v : V)
    (hc : cfg.enable_caching = true) (hmr : 0 ≤ cfg.max_retries)
    (hts : dictGet st.timestamps (getCacheKey "GET" url params) = some ts)
    (hv : dictGet st.cache (getCacheKey "GET" url params) = some v) :
    (now - ts < cfg.cache_ttl →
      makeRequest cfg oracle "GET" url params true st now = (⟨0, [], Except.ok v⟩, st)) ∧
    (cfg.cache_ttl ≤ now - ts →
      (getCache cfg st now (getCacheKey "GET" url params)).1 = none ∧
      dictGet (getCache cfg st now (getCacheKey "GET" url params)).2.cache
        (getCacheKey "GET" url params) = none ∧
      dictGet (getCache cfg st now (getCacheKey "GET" url params)).2.timestamps
        (getCacheKey "GET" url params) = none ∧
      1 ≤ (makeRequest cfg oracle "GET" url params true st now).1.attemptsIssued) := by
  constructor
  · intro hlt
    have hvalid : isCacheValid cfg st now (getCacheKey "GET" url params) = true := by
      unfold isCacheValid
      rw [hts]
      simpa using hlt
    have hg : getCache cfg st now (getCacheKey "GET" url params) = (some v, st) := by
      unfold getCache
      rw [hc, hvalid, hv]
      simp
    unfold makeRequest
    simp only [hg]
    rfl
  · intro hge
    have hinvalid : isCacheValid cfg st now (getCacheKey "GET" url params) = false := by
      unfold isCacheValid
      rw [hts]
      simpa using not_lt.mpr (by linarith)
    have hg : getCache cfg st now (getCacheKey "GET" url params) =
        (none, ⟨dictPop st.cache (getCacheKey "GET" url params),
          dictPop st.timestamps (getCacheKey "GET" url params)⟩) := by
      unfold getCache
      rw [hc, hinvalid]
      simp
    refine ⟨by rw [hg], by rw [hg]; exact dictGet_dictPop_self _ _,
      by rw [hg]; exact dictGet_dictPop_self _ _, ?_⟩
    rw [makeRequest_fst_of_reaches cfg oracle "GET" url params true st now (Or.inr (by rw [hg]))]
    unfold runLoop
    exact loopGo_attempts_pos oracle cfg.max_retries cfg.retry_delay 0 _ none (by omega)

/-- C5 witness: a fresh entry is served from the cache with zero transport
attempts; a stale entry misses, is evicted from both dicts, and the request
goes to the transport. -/
theorem c5_cache_hit_and_expiry_witness :
    @makeRequest Nat cfg3 (fun _ => TransportOutcome.response ⟨200, 7, none⟩)
        "GET" "/m" none true ⟨[("GET|/m", 42)], [("GET|/m", 0)]⟩ 10 =
      (⟨0, [], Except.ok 42⟩, ⟨[("GET|/m", 42)], [("GET|/m", 0)]⟩) ∧
    (@getCache Nat cfg3 ⟨[("GET|/m", 42)], [("GET|/m", 0)]⟩ 400 "GET|/m").1 = none ∧
    dictGet (@getCache Nat cfg3 ⟨[("GET|/m", 42)], [("GET|/m", 0)]⟩ 400 "GET|/m").2.cache
      "GET|/m" = none ∧
    1 ≤ (@makeRequest Nat cfg3 (fun _ => TransportOutcome.response ⟨200, 7, none⟩)
        "GET" "/m" none true ⟨[("GET|/m", 42)], [("GET|/m", 0)]⟩ 400).1.attemptsIssued := by
  have h1 := @c5_cache_hit_and_expiry Nat cfg3 (fun _ => TransportOutcome.response ⟨200, 7, none⟩)
    "/m" none ⟨[("GET|/m", 42)], [("GET|/m", 0)]⟩ 10 0 42 rfl (by norm_num [cfg3]) rfl rfl
  have h2 := @c5_cache_hit_and_expiry Nat cfg3 (fun _ => TransportOutcome.response ⟨200, 7, none⟩)
    "/m" none ⟨[("GET|/m", 42)], [("GET|/m", 0)]⟩ 400 0 42 rfl (by norm_num [cfg3]) rfl rfl
  have hhit := h1.1 (by norm_num [cfg3])
  have hstale := h2.2 (by norm_num [cfg3])
  exact ⟨hhit, hstale.1, hstale.2.1, hstale.2.2.2⟩

/-- C10: with caching disabled, cache writes are no-ops and cache reads miss
without touching state, every `_make_request` call leaves the cache state
unchanged — so any sequence of requests keeps the maps empty — and every
request, cache-eligible GETs included, issues at least one transport
attempt. -/
theorem c10_caching_disabled {V : Type} (cfg : Config) (hc : cfg.enable_caching = false) :
    (∀ (st : CacheState V) (now : ℚ) (key : String) (v : V), setCache cfg st now key v = st) ∧
    (∀ (st : CacheState V) (now : ℚ) (key : String), getCache cfg st now key = (none, st)) ∧
    (∀ (oracle : Nat → TransportOutcome V) (method url : String)
      (params : Option (List (String × String))) (useCache : Bool) (st : CacheState V) (now : ℚ),
      (makeRequest cfg oracle method url params useCache st now).2 = st) ∧
    (∀ reqs : List (RequestSpec V), runRequests cfg reqs emptyCache = emptyCache) ∧
    (0 ≤ cfg.max_retries →
      ∀ (oracle : Nat → TransportOutcome V) (method url : String)
        (params : Option (List (String × String))) (useCache : Bool) (st : CacheState V) (now : ℚ),
        1 ≤ (makeRequest cfg oracle method url params useCache st now).1.attemptsIssued) := by
  have hset : ∀ (st : CacheState V) (now : ℚ) (key : String) (v : V),
      setCache cfg st now key v = st := by
    intro st now key v
    unfold setCache
    rw [hc]
    simp
  have hget : ∀ (st : CacheState V) (now : ℚ) (key : String),
      getCache cfg st now key = (none, st) := by
    intro st now key
    unfold getCache
    rw [hc]
    simp
  have hstate : ∀ (oracle : Nat → TransportOutcome V) (method url : String)
      (params : Option (List (String × String))) (useCache : Bool) (st : CacheState V) (now : ℚ),
      (makeRequest cfg oracle method url params useCache st now).2 = st := by
    intro oracle method url params useCache st now
    unfold makeRequest
    by_cases hb : ((method == "GET") && useCache) = true
    · simp only [hb, if_true, hget]
      cases hres : (runLoop cfg oracle).result <;> simp [hres, hset]
    · simp only [Bool.not_eq_true] at hb
      rw [hb]
      simp
  refine ⟨hset, hget, hstate, ?_, ?_⟩
  · intro reqs
    induction reqs with
    | nil => rfl
    | cons r t ih =>
      unfold runRequests
      simp only [List.foldl_cons]
      rw [hstate]
      exact ih
  · intro hmr oracle method url params useCache st now
    rw [makeRequest_fst_of_reaches cfg oracle method url params useCache st now
      (Or.inr (by rw [hget]))]
    unfold runLoop
    exact loopGo_attempts_pos oracle cfg.max_retries cfg.retry_delay 0 _ none (by omega)

/-- C10 witness: with a caching-disabled configuration, a cache-eligible GET
leaves the empty cache state empty and still issues a transport attempt. -/
theorem c10_caching_disabled_witness :
    (@makeRequest Nat { api_key := "k", enable_caching := false }
        (fun _ => TransportOutcome.response ⟨200, 7, none⟩) "GET" "/m" none true emptyCache 0).2 =
      emptyCache ∧
    @runRequests Nat { api_key := "k", enable_caching := false }
      [⟨fun _ => TransportOutcome.response ⟨200, 7, none⟩, "GET", "/m", none, true, 0⟩]
      emptyCache = emptyCache ∧
    1 ≤ (@makeRequest Nat { api_key := "k", enable_caching := false }
        (fun _ => TransportOutcome.response ⟨200, 7, none⟩) "GET" "/m" none true
        emptyCache 0).1.attemptsIssued := by
  have h := @c10_caching_disabled Nat { api_key := "k", enable_caching := false } rfl
  exact ⟨h.2.2.1 _ _ _ _ _ _ _, h.2.2.2.1 _, h.2.2.2.2 (by norm_num) _ _ _ _ _ _ _⟩

/-- C7 counterexample: `add_memory` called with `user_id` supplied as the
empty string omits the field from the body, because the source guards the
field with Python truthiness rather than a `None` check. -/
theorem c7_counterexample :
    (some "" : Option String) ≠ none ∧
    dictMem (addMemoryBody "c" "a" "untyped" (1 / 2) (some "") none none) "user_id" = false := by
  refine ⟨by simp, by rfl⟩

/-- Key membership distributes over dict concatenation. -/
theorem dictMem_append {α : Type} (d1 d2 : List (String × α)) (k : String) :
    dictMem (d1 ++ d2) k = (dictMem d1 k || dictMem d2 k) := by
  simp [dictMem]

theorem addMemoryBody_mem_user_id (content agent_id memory_type : String) (importance : ℚ)
    (uid sid : Option String) (md : Option (List (String × String))) :
    dictMem (addMemoryBody content agent_id memory_type importance uid sid md) "user_id" =
      pyTruthyStr uid := by
  rcases uid with _ | u <;> rcases sid with _ | s <;> rcases md with _ | d <;>
    simp [addMemoryBody, pyTruthyStr] <;> (try split_ifs) <;>
    simp_all [dictMem_append, dictMem]

theorem addMemoryBody_mem_session_id (content agent_id memory_type : String) (importance : ℚ)
    (uid sid : Option String) (md : Option (List (String × String))) :
    dictMem (addMemoryBody content agent_id memory_type importance uid sid md) "session_id" =
      pyTruthyStr sid := by
  rcases uid with _ | u <;> rcases sid with _ | s <;> rcases md with _ | d <;>
    simp [addMemoryBody, pyTruthyStr] <;> (try split_ifs) <;>
    simp_all [dictMem_append, dictMem]

theorem addMemoryBody_mem_metadata (content agent_id memory_type : String) (importance : ℚ)
    (uid sid : Option String) (md : Option (List (String × String))) :
    dictMem (addMemoryBody content agent_id memory_type importance uid sid md) "metadata" =
      pyTruthyDict md := by
  rcases uid with _ | u <;> rcases sid with _ | s <;> rcases md with _ | d <;>
    simp [addMemoryBody, pyTruthyDict] <;> (try split_ifs) <;>
    simp_all [dictMem_append, dictMem]

theorem updateMemoryBody_mem (c : Option String) (i : Option ℚ)
    (m : Option (List (String × String))) :
    dictMem (updateMemoryBody c i m) "content" = c.isSome ∧
    dictMem (updateMemoryBody c i m) "importance" = i.isSome ∧
    dictMem (updateMemoryBody c i m) "metadata" = m.isSome := by
  rcases c with _ | cv <;> rcases i with _ | iv <;> rcases m with _ | mv <;>
    simp [updateMemoryBody, dictMem_append, dictMem]

/-- C7 (amended): in `update_memory` an optional field is sent exactly when
the caller supplied it (a `None` check); in `add_memory` an optional field
is sent exactly when the supplied value is truthy, so empty strings and
empty dicts are dropped; `update_memory` with only importance supplied
sends a body holding solely the importance field. -/
theorem c7_optional_fields (content agent_id memory_type : String) (importance : ℚ)
    (uid sid : Option String) (md : Option (List (String × String)))
    (c : Option String) (i : Option ℚ) (m : Option (List (String × String))) :
    dictMem (addMemoryBody content agent_id memory_type importance uid sid md) "user_id" =
      pyTruthyStr uid ∧
    dictMem (addMemoryBody content agent_id memory_type importance uid sid md) "session_id" =
      pyTruthyStr sid ∧
    dictMem (addMemoryBody content agent_id memory_type importance uid sid md) "metadata" =
      pyTruthyDict md ∧
    dictMem (updateMemoryBody c i m) "content" = c.isSome ∧
    dictMem (updateMemoryBody c i m) "importance" = i.isSome ∧
    dictMem (updateMemoryBody c i m) "metadata" = m.isSome ∧
    updateMemoryBody none (some importance) none = [("importance", BodyVal.f importance)] :=
  ⟨addMemoryBody_mem_user_id content agent_id memory_type importance uid sid md,
   addMemoryBody_mem_session_id content agent_id memory_type importance uid sid md,
   addMemoryBody_mem_metadata content agent_id memory_type importance uid sid md,
   (updateMemoryBody_mem c i m).1, (updateMemoryBody_mem c i m).2.1,
   (updateMemoryBody_mem c i m).2.2, rfl⟩

/-! ### tools.py theorems -/

/-- A substring of the right factor is a substring of a concatenation. -/
theorem strContains_append_left (s : String) {t sub : String} (h : strContains t sub) :
    strContains (s ++ t) sub := by
  unfold strContains at h ⊢
  obtain ⟨a, b, hab⟩ := h
  refine ⟨s.data ++ a, b, ?_⟩
  rw [String.data_append, ← hab]
  simp [List.append_assoc]

/-- A substring of the left factor is a substring of a concatenation. -/
theorem strContains_append_right {s sub : String} (t : String) (h : strContains s sub) :
    strContains (s ++ t) sub := by
  unfold strContains at h ⊢
  obtain ⟨a, b, hab⟩ := h
  refine ⟨a, b ++ t.data, ?_⟩
  rw [String.data_append, ← hab]
  simp [List.append_assoc]

/-- The unknown-tool message always contains "not found". -/
theorem notFoundMsg_contains (tool_name : String) :
    strContains (notFoundMsg tool_name) "not found" := by
  unfold notFoundMsg
  exact strContains_append_left _ (by decide)

/-- The missing-parameter message always contains "Missing". -/
theorem missingParamMsg_contains (param_name : String) :
    strContains (missingParamMsg param_name) "Missing" := by
  unfold missingParamMsg
  exact strContains_append_right _ (by decide)

/-- C8 counterexample: the missing-required-parameter failure carries the
message "Missing required parameter: a", which does not contain the
lower-case string "missing". -/
theorem c8_counterexample :
    (execute ex0 "calc" [] none "id0" 0 false).error = some (missingParamMsg "a") ∧
    ¬ strContains (missingParamMsg "a") "missing" := by
  refine ⟨rfl, by decide⟩

/-- C8 (amended): `execute` returns a `ToolExecution` value on every failure
path rather than raising: an unregistered name yields a failed execution
whose error contains "not found"; a missing required parameter yields a
failed execution whose error contains "Missing" (the source capitalizes the
word); a handler raising any exception other than `asyncio.TimeoutError`
yields a failed execution carrying the exception text as the error; and a
handler raising `asyncio.TimeoutError` — a plain handler included — is
caught by the try-wide timeout clause and yields the timed-out failure whose
message interpolates the timeout argument, not the exception text. -/
theorem c8_execute_failures {V : Type} (ex : ToolExecutor V) (tool_name : String)
    (input_data : List (String × V)) (timeout : Option ℚ) (eid : String) (dur : ℚ)
    (tmo : Bool) :
    (dictGet ex.tools tool_name = none →
      execute ex tool_name input_data timeout eid dur tmo =
        ⟨eid, tool_name, ToolStatus.failed, input_data, none,
          some (notFoundMsg tool_name), some dur⟩ ∧
      strContains (notFoundMsg tool_name) "not found") ∧
    (∀ schema handler p, dictGet ex.tools tool_name = some (schema, handler) →
      schema.parameters.find? (fun q => q.required && !(dictMem input_data q.name)) = some p →
      execute ex tool_name input_data timeout eid dur tmo =
        ⟨eid, tool_name, ToolStatus.failed, input_data, none,
          some (missingParamMsg p.name), some dur⟩ ∧
      strContains (missingParamMsg p.name) "Missing") ∧
    (∀ schema f emsg, dictGet ex.tools tool_name = some (schema, Handler.sync f) →
      schema.parameters.find? (fun q => q.required && !(dictMem input_data q.name)) = none →
      f input_data = HandlerOutcome.exn emsg →
      execute ex tool_name input_data timeout eid dur tmo =
        ⟨eid, tool_name, ToolStatus.failed, input_data, none, some emsg, some dur⟩) ∧
    (∀ schema f, dictGet ex.tools tool_name = some (schema, Handler.sync f) →
      schema.parameters.find? (fun q => q.required && !(dictMem input_data q.name)) = none →
      f input_data = HandlerOutcome.timeoutExn →
      execute ex tool_name input_data timeout eid dur tmo =
        ⟨eid, tool_name, ToolStatus.failed, input_data, none,
          some (timeoutMsg timeout), some dur⟩) := by
  refine ⟨?_, ?_, ?_, ?_⟩
  · intro h
    unfold execute
    rw [h]
    exact ⟨by trivial, notFoundMsg_contains tool_name⟩
  · intro schema handler p h hfind
    unfold execute
    rw [h]
    simp only [hfind]
    exact ⟨by trivial, missingParamMsg_contains p.name⟩
  · intro schema f emsg h hfind hexn
    unfold execute
    rw [h]
    simp only [hfind, hexn]
  · intro schema f h hfind htime
    unfold execute
    rw [h]
    simp only [hfind, htime]

/-- C8 witness: the four failure modes observed on concrete executors. -/
theorem c8_execute_failures_witness :
    (execute ex0 "nosuch" [] none "id0" 0 false).status = ToolStatus.failed ∧
    (execute ex0 "nosuch" [] none "id0" 0 false).error = some (notFoundMsg "nosuch") ∧
    strContains (notFoundMsg "nosuch") "not found" ∧
    (execute ex0 "calc" [] none "id0" 0 false).status = ToolStatus.failed ∧
    strContains (missingParamMsg "a") "Missing" ∧
    (execute exRaise "boom" [] none "id0" 0 false).error = some "division by zero" ∧
    (execute exTimeoutRaise "slow" [] none "id0" 0 false).error = some (timeoutMsg none) := by
  have h1 := (@c8_execute_failures Nat ex0 "nosuch" [] none "id0" 0 false).1 rfl
  have h2 := (@c8_execute_failures Nat ex0 "calc" [] none "id0" 0 false).2.1
    ⟨"calc", "calculator", [⟨"a", "number", "first operand", true, none⟩], "number"⟩
    (Handler.sync (fun _ => HandlerOutcome.ok 0)) ⟨"a", "number", "first operand", true, none⟩
    rfl rfl
  have h3 := (@c8_execute_failures Nat exRaise "boom" [] none "id0" 0 false).2.2.1
    ⟨"boom", "raises", [], "nothing"⟩ (fun _ => HandlerOutcome.exn "division by zero")
    "division by zero" rfl rfl rfl
  have h4 := (@c8_execute_failures Nat exTimeoutRaise "slow" [] none "id0" 0 false).2.2.2
    ⟨"slow", "raises TimeoutError", [], "nothing"⟩ (fun _ => HandlerOutcome.timeoutExn)
    rfl rfl rfl
  refine ⟨by rw [h1.1], by rw [h1.1], h1.2, by rw [h2.1], h2.2, by rw [h3], by rw [h4]⟩

/-- C9 counterexample: a plain (non-coroutine) handler that raises
`asyncio.TimeoutError` is caught by the try-wide timeout clause, so it does
yield a timed-out failed result, and the message interpolates the timeout
argument — the execution with timeout 7 differs from the one with none. -/
theorem c9_counterexample :
    (execute exTimeoutRaise "slow" [] (some 7) "id0" 0 false).error =
      some (timeoutMsg (some 7)) ∧
    (execute exTimeoutRaise "slow" [] none "id0" 0 false).error = some (timeoutMsg none) ∧
    timeoutMsg (some 7) ≠ timeoutMsg none ∧
    execute exTimeoutRaise "slow" [] (some 7) "id0" 0 false ≠
      execute exTimeoutRaise "slow" [] none "id0" 0 false := by
  refine ⟨rfl, rfl, by decide, ?_⟩
  intro h
  have he := congrArg ToolExecution.error h
  revert he
  decide

/-- C9 (amended): `asyncio.wait_for` wrapping is armed only for coroutine
handlers, so for a registered plain handler the execution result equals the
no-timeout one whenever the handler does not raise `asyncio.TimeoutError`;
but when a plain handler does raise `asyncio.TimeoutError`, the try-wide
timeout clause returns the timed-out failure whose message interpolates the
timeout argument, so the result does depend on the timeout. -/
theorem c9_sync_timeout_dependence {V : Type} (ex : ToolExecutor V) (tool_name : String)
    (input_data : List (String × V)) (timeout : Option ℚ) (eid : String) (dur : ℚ)
    (tmo : Bool) (schema : ToolSchema) (f : List (String × V) → HandlerOutcome V)
    (h : dictGet ex.tools tool_name = some (schema, Handler.sync f)) :
    (f input_data ≠ HandlerOutcome.timeoutExn →
      execute ex tool_name input_data timeout eid dur tmo =
        execute ex tool_name input_data none eid dur false) ∧
    (schema.parameters.find? (fun q => q.required && !(dictMem input_data q.name)) = none →
      f input_data = HandlerOutcome.timeoutExn →
      execute ex tool_name input_data timeout eid dur tmo =
        ⟨eid, tool_name, ToolStatus.failed, input_data, none,
          some (timeoutMsg timeout), some dur⟩) := by
  constructor
  · intro hne
    unfold execute
    rw [h]
    dsimp only
    cases hfind : schema.parameters.find? (fun q => q.required && !(dictMem input_data q.name)) with
    | some p => rfl
    | none =>
      dsimp only
      cases hout : f input_data with
      | ok v => rfl
      | timeoutExn => exact absurd hout hne
      | exn m => rfl
  · intro hfind htime
    unfold execute
    rw [h]
    simp only [hfind, htime]

/-- C9 witness: a plain handler that returns normally produces the same
execution with timeout 7 as with none; one that raises TimeoutError yields
the timed-out failure interpolating the supplied timeout. -/
theorem c9_sync_timeout_dependence_witness :
    execute ex0 "calc" [("a", 5)] (some 7) "id0" 0 true =
      execute ex0 "calc" [("a", 5)] none "id0" 0 false ∧
    execute exTimeoutRaise "slow" [] (some 7) "id0" 0 false =
      ⟨"id0", "slow", ToolStatus.failed, [], none, some (timeoutMsg (some 7)), some 0⟩ := by
  have h1 := (c9_sync_timeout_dependence ex0 "calc" [("a", 5)] (some 7) "id0" 0 true
    ⟨"calc", "calculator", [⟨"a", "number", "first operand", true, none⟩], "number"⟩
    (fun _ => HandlerOutcome.ok 0) rfl).1 (by decide)
  have h2 := (c9_sync_timeout_dependence exTimeoutRaise "slow" [] (some 7) "id0" 0 false
    ⟨"slow", "raises TimeoutError", [], "nothing"⟩
    (fun _ => HandlerOutcome.timeoutExn) rfl).2 rfl rfl
  exact ⟨h1, h2⟩

/-! ### cache-key permutation invariance -/

/-- Sorting by key sends permuted dicts with distinct keys to one list. -/
theorem mergeSort_key_perm_eq (ps1 ps2 : List (String × String))
    (hperm : ps1.Perm ps2) (hnd : (ps1.map Prod.fst).Nodup) :
    ps1.mergeSort (fun a b => decide (a.1 ≤ b.1)) =
      ps2.mergeSort (fun a b => decide (a.1 ≤ b.1)) := by
  have htrans : ∀ a b c : String × String,
      (fun a b : String × String => decide (a.1 ≤ b.1)) a b = true →
      (fun a b : String × String => decide (a.1 ≤ b.1)) b c = true →
      (fun a b : String × String => decide (a.1 ≤ b.1)) a c = true := by
    intro a b c hab hbc
    simp only [decide_eq_true_eq] at hab hbc ⊢
    exact le_trans hab hbc
  have htotal : ∀ a b : String × String,
      ((fun a b : String × String => decide (a.1 ≤ b.1)) a b ||
       (fun a b : String × String => decide (a.1 ≤ b.1)) b a) = true := by
    intro a b
    simp only [Bool.or_eq_true, decide_eq_true_eq]
    exact le_total a.1 b.1
  have hp : (ps1.mergeSort (fun a b => decide (a.1 ≤ b.1))).Perm
      (ps2.mergeSort (fun a b => decide (a.1 ≤ b.1))) :=
    (List.mergeSort_perm ps1 _).trans (hperm.trans (List.mergeSort_perm ps2 _).symm)
  have hnd1 : ((ps1.mergeSort (fun a b => decide (a.1 ≤ b.1))).map Prod.fst).Nodup :=
    ((List.mergeSort_perm ps1 _).map Prod.fst).nodup_iff.mpr hnd
  have hnd2 : ((ps2.mergeSort (fun a b => decide (a.1 ≤ b.1))).map Prod.fst).Nodup :=
    ((List.mergeSort_perm ps2 _).map Prod.fst).nodup_iff.mpr
      ((hperm.map Prod.fst).nodup_iff.mp hnd)
  have strict : ∀ l : List (String × String),
      List.Pairwise (fun a b : String × String => decide (a.1 ≤ b.1) = true) l →
      (l.map Prod.fst).Nodup →
      List.Sorted (fun a b : String × String => a.1 < b.1) l := by
    intro l hle hndl
    have hne : List.Pairwise (fun a b : String × String => a.1 ≠ b.1) l :=
      List.pairwise_map.mp hndl
    exact (hle.and hne).imp (fun hab =>
      lt_of_le_of_ne (by simpa using hab.1) hab.2)
  haveI : IsAntisymm (String × String) (fun a b : String × String => a.1 < b.1) :=
    ⟨fun a b h1 h2 => absurd h2 (not_lt.mpr (le_of_lt h1))⟩
  exact List.eq_of_perm_of_sorted hp
    (strict _ (List.sorted_mergeSort htrans htotal ps1) hnd1)
    (strict _ (List.sorted_mergeSort htrans htotal ps2) hnd2)

/-- C6: the cache key is invariant under permutation of the query-parameter
dict entries (keys are unique in a dict), so cache hits do not depend on
caller-side insertion order. -/
theorem c6_cache_key_order_invariant (method url : String) (ps1 ps2 : List (String × String))
    (hperm : ps1.Perm ps2) (hnd : (ps1.map Prod.fst).Nodup) :
    getCacheKey method url (some ps1) = getCacheKey method url (some ps2) := by
  unfold getCacheKey
  dsimp only
  by_cases h1 : ps1 = []
  · have h2 : ps2 = [] := (h1 ▸ hperm).symm.eq_nil
    rw [if_pos h1, if_pos h2]
  · have h2 : ps2 ≠ [] := fun h => h1 (h ▸ hperm).eq_nil
    rw [if_neg h1, if_neg h2]
    unfold dumpsSorted
    rw [mergeSort_key_perm_eq ps1 ps2 hperm hnd]

/-- C6 witness: the two insertion orders of the same two-entry parameter
dict produce the identical cache key. -/
theorem c6_cache_key_order_invariant_witness :
    getCacheKey "GET" "/memories/stats" (some [("a", "1"), ("b", "2")]) =
      getCacheKey "GET" "/memories/stats" (some [("b", "2"), ("a", "1")]) := by
  exact c6_cache_key_order_invariant "GET" "/memories/stats" _ _ (by decide) (by decide)

/-- C4 witness: a default configuration with a key validates successfully. -/
theorem c4_validate_ok_iff_witness :
    Config.validate { api_key := "k" } = Except.ok () := by
  exact (c4_validate_ok_iff { api_key := "k" }).mpr
    ⟨by decide, by decide, by norm_num, by norm_num, by norm_num, by norm_num,
     by norm_num, by norm_num, by norm_num, by decide⟩

/-- C7 witness: concrete bodies show the presence conditions and the
importance-only update body. -/
theorem c7_optional_fields_witness :
    dictMem (addMemoryBody "c" "a" "untyped" (1 / 2) (some "u1") none none) "user_id" = true ∧
    dictMem (updateMemoryBody none (some (4 / 5)) none) "content" = false ∧
    updateMemoryBody none (some (4 / 5)) none = [("importance", BodyVal.f (4 / 5))] := by
  have h := c7_optional_fields "c" "a" "untyped" (4 / 5) (some "u1") none none none
    (some (4 / 5)) none
  refine ⟨?_, ?_, h.2.2.2.2.2.2⟩
  · have h2 := c7_optional_fields "c" "a" "untyped" (1 / 2) (some "u1") none none none
      (some (4 / 5)) none
    rw [h2.1]
    rfl
  · rw [h.2.2.2.1]
    rfl

end AgentMem
